import Mathlib

/-!
Verification development for the rust_citadel repository: a shallow Lean
embedding of the envelope engine (wire codec, hybrid KEM, KDF, AEAD,
seal/open composition) and the keystore (lifecycle state machine, policy
engine, threat assessor, policy adapter, audit integrity chain, keystore
encrypt/decrypt), with theorems settling the spec claims.

Bytes are modelled as `List Nat` (entries are byte values where the code
depends on them).  External cryptographic libraries (x25519-dalek, ml-kem,
aes-gcm, hkdf, sha2/sha3) are modelled by computable idealized functions
satisfying their documented functional contracts; every function of the
repository itself (wire codec, KDF info layout, seal/open composition,
policy evaluation, adaptation, threat level recomputation, audit chain,
keystore operations) is transliterated from the source.
-/

namespace Citadel

/-! ## Wire constants (src/src/wire.rs) -/

def PROTOCOL_ID : List Nat := ("citadel-env-v1".toList).map Char.toNat

def PROTOCOL_VERSION : Nat := 0x01

def SUITE_KEM_HYBRID_X25519_MLKEM768 : Nat := 0xA3

def SUITE_AEAD_AES256GCM : Nat := 0xB1

def FLAGS_V1 : Nat := 0x00

def X25519_KEY_BYTES : Nat := 32

def MLKEM_CIPHERTEXT_BYTES : Nat := 1088

def KEM_CIPHERTEXT_BYTES : Nat := X25519_KEY_BYTES + MLKEM_CIPHERTEXT_BYTES

def NONCE_BYTES : Nat := 12

def AEAD_TAG_BYTES : Nat := 16

def HEADER_BYTES : Nat := 1 + 1 + 1 + 1 + 2

def MIN_CIPHERTEXT_BYTES : Nat :=
  HEADER_BYTES + KEM_CIPHERTEXT_BYTES + NONCE_BYTES + AEAD_TAG_BYTES

/-! ## Errors (src/src/error.rs) -/

/-- The single opaque decryption error (`struct DecryptionError;`). -/
structure DecryptionError where
  deriving DecidableEq, Repr

/-- `impl Display for DecryptionError` writes exactly "decryption failed". -/
def DecryptionError.display (_ : DecryptionError) : String := "decryption failed"

/-- Encoding (seal-path) error (`struct EncodingError;`). -/
structure EncodingError where
  deriving DecidableEq, Repr

/-! ## Wire codec (src/src/wire.rs) -/

structure WireComponents where
  version : Nat
  suite_kem : Nat
  suite_aead : Nat
  flags : Nat
  kem_ct_len : Nat
  kem_ciphertext : List Nat
  nonce : List Nat
  aead_ciphertext : List Nat
  deriving DecidableEq, Repr

/-- Transliteration of `decode_wire`: length check, header byte checks
(version, suite ids, flags, big-endian `kem_ct_len`), component split,
AEAD-tag length check.  All rejections return the one `DecryptionError`. -/
def decode_wire (data : List Nat) : Except DecryptionError WireComponents :=
  if data.length < MIN_CIPHERTEXT_BYTES then .error {} else
  let version := data.getD 0 0
  let suite_kem := data.getD 1 0
  let suite_aead := data.getD 2 0
  let flags := data.getD 3 0
  let kem_ct_len := 256 * data.getD 4 0 + data.getD 5 0
  if version ≠ PROTOCOL_VERSION then .error {} else
  if suite_kem ≠ SUITE_KEM_HYBRID_X25519_MLKEM768 ∨ suite_aead ≠ SUITE_AEAD_AES256GCM then
    .error {} else
  if flags ≠ FLAGS_V1 then .error {} else
  if kem_ct_len ≠ KEM_CIPHERTEXT_BYTES then .error {} else
  let kem_ciphertext := (data.drop HEADER_BYTES).take KEM_CIPHERTEXT_BYTES
  let nonce := (data.drop (HEADER_BYTES + KEM_CIPHERTEXT_BYTES)).take NONCE_BYTES
  let aead_ciphertext := data.drop (HEADER_BYTES + KEM_CIPHERTEXT_BYTES + NONCE_BYTES)
  if aead_ciphertext.length < AEAD_TAG_BYTES then .error {} else
  .ok {
    version := version
    suite_kem := suite_kem
    suite_aead := suite_aead
    flags := flags
    kem_ct_len := kem_ct_len
    kem_ciphertext := kem_ciphertext
    nonce := nonce
    aead_ciphertext := aead_ciphertext
  }

/-- Transliteration of `encode_wire`: length checks on the KEM ciphertext and
the AEAD ciphertext, then the v1 header (0x01, 0xA3, 0xB1, 0x00, then
`kem_ct_len = 1120` big-endian, i.e. bytes 0x04 0x60) followed by the
components. -/
def encode_wire (kem_ct : List Nat) (nonce : List Nat) (aead_ct : List Nat) :
    Except EncodingError (List Nat) :=
  if kem_ct.length ≠ KEM_CIPHERTEXT_BYTES then .error {} else
  if aead_ct.length < AEAD_TAG_BYTES then .error {} else
  .ok ([PROTOCOL_VERSION, SUITE_KEM_HYBRID_X25519_MLKEM768, SUITE_AEAD_AES256GCM,
        FLAGS_V1, 0x04, 0x60] ++ kem_ct ++ nonce ++ aead_ct)

/-! ## Injective encoding helper for the idealized primitives -/

/-- Encoding of a byte list into one natural (used only inside the idealized
models of the external KDF/MAC primitives): base-256 value paired with the
length.  Injective on lists of bytes. -/
def encodeBytes (l : List Nat) : Nat := Nat.pair (Nat.ofDigits 256 l) l.length

/-- A byte list: every entry below 256. -/
def IsBytes (l : List Nat) : Prop := ∀ b ∈ l, b < 256

instance (l : List Nat) : Decidable (IsBytes l) := by
  unfold IsBytes; infer_instance

theorem encodeBytes_inj {xs ys : List Nat} (hx : IsBytes xs) (hy : IsBytes ys)
    (h : encodeBytes xs = encodeBytes ys) : xs = ys := by
  unfold encodeBytes at h
  have h2 := Nat.pair_eq_pair.mp h
  clear h
  induction xs generalizing ys with
  | nil =>
    cases ys with
    | nil => rfl
    | cons b bs => simp at h2
  | cons a as ih =>
    cases ys with
    | nil => simp at h2
    | cons b bs =>
      obtain ⟨hval, hlen⟩ := h2
      rw [Nat.ofDigits_cons, Nat.ofDigits_cons] at hval
      have ha : a < 256 := hx a (by simp)
      have hb : b < 256 := hy b (by simp)
      have hab : a = b ∧ (Nat.ofDigits 256 as : ℕ) = Nat.ofDigits 256 bs := by
        constructor
        · omega
        · omega
      have htail : as = bs := by
        refine ih (fun c hc => hx c (by simp [hc])) (fun c hc => hy c (by simp [hc])) ?_
        exact ⟨hab.2, by simpa using hlen⟩
      rw [hab.1, htail]

/-! ## Hybrid KEM (src/src/kem.rs; x25519-dalek and ml-kem modelled) -/

/-- Models `HybridX25519MlKem768Provider::keygen` (external RNG + lattice
keygen): a keypair is determined by its generation seed; the public and the
secret half designate the same keypair. -/
def keygen (seed : Nat) : Nat × Nat := (seed, seed)

/-- Model of the 1120-byte hybrid KEM ciphertext
(`x25519_ephemeral_pk[32] || mlkem_ct[1088]`): carries the encapsulation
randomness, padded to the exact on-wire length. -/
def kemCtBytes (r : Nat) : List Nat := r :: List.replicate (KEM_CIPHERTEXT_BYTES - 1) 0

/-- Models `encapsulate`: from the recipient public key and fresh randomness,
produce the combined shared secret and the 1120-byte KEM ciphertext.
The shared secret is determined by the keypair and the randomness. -/
def encapsulate (pk : Nat) (r : Nat) : Nat × List Nat :=
  (Nat.pair pk r, kemCtBytes r)

/-- Models `decapsulate`: rejects a ciphertext of the wrong length (the
`ct.len() != KEM_CIPHERTEXT_BYTES` check in the source); otherwise
recombines the shared secret from the secret key and the ciphertext.
A mismatched secret key yields a different (wrong) shared secret, like the
implicit rejection of the real hybrid KEM. -/
def decapsulate (sk : Nat) (ct : List Nat) : Except DecryptionError Nat :=
  if ct.length ≠ KEM_CIPHERTEXT_BYTES then .error {}
  else .ok (Nat.pair sk (ct.headD 0))

/-! ## KDF (citadel-envelope/src/kdf.rs; sha3 and hkdf modelled) -/

/-- Models `ct_hash`: a 32-byte digest of the KEM ciphertext (SHA3-256 in the
source), idealized as a cheap byte-valued digest padded to 32 bytes. -/
def ct_hash (kem_ct : List Nat) : List Nat :=
  (kem_ct.foldl (fun a b => a + b) 0) % 256 :: List.replicate 31 0

/-- Transliteration of `derive_key`'s info layout
(`info = PROTOCOL_ID || "|aes|" || ct_hash || context`), with
HKDF-SHA-256 idealized as an injective function of (ikm, info). -/
def derive_key (shared_secret : Nat) (ctHash : List Nat) (context : List Nat) : Nat :=
  let info := PROTOCOL_ID ++ (("|aes|".toList).map Char.toNat) ++ ctHash ++ context
  Nat.pair shared_secret (encodeBytes info)

/-! ## AEAD (citadel-envelope/src/aead.rs; aes-gcm modelled) -/

/-- Models the 16-byte AES-256-GCM authentication tag: an ideal MAC over
(key, nonce, plaintext, aad), padded to the exact tag length. -/
def tagBytes (key : Nat) (nonce : List Nat) (pt : List Nat) (aad : List Nat) : List Nat :=
  Nat.pair key (Nat.pair (encodeBytes nonce) (Nat.pair (encodeBytes pt) (encodeBytes aad)))
    :: List.replicate (AEAD_TAG_BYTES - 1) 0

/-- Models `aead_seal`: AES-256-GCM produces `plaintext || tag(16)`. -/
def aead_seal (key : Nat) (nonce : List Nat) (plaintext : List Nat) (aad : List Nat) :
    List Nat :=
  plaintext ++ tagBytes key nonce plaintext aad

/-- Models `aead_open`: split off the 16-byte tag, recompute it over the
candidate plaintext and the caller's aad, and compare; any mismatch (or a
ciphertext shorter than the tag) is the uniform `DecryptionError`. -/
def aead_open (key : Nat) (nonce : List Nat) (ciphertext : List Nat) (aad : List Nat) :
    Except DecryptionError (List Nat) :=
  if ciphertext.length < AEAD_TAG_BYTES then .error {}
  else
    let pt := ciphertext.take (ciphertext.length - AEAD_TAG_BYTES)
    if ciphertext.drop (ciphertext.length - AEAD_TAG_BYTES) = tagBytes key nonce pt aad then
      .ok pt
    else .error {}

/-! ## Envelope composition (src/src/lib.rs, `Citadel::encrypt` / `Citadel::decrypt`) -/

/-- Transliteration of `Citadel::encrypt` (= `seal`), with the encapsulation
randomness `r` and the nonce made explicit (drawn from the OS RNG in the
source): encapsulate, derive the AEAD key from (shared secret, SHA3 of the
KEM ciphertext, context), AEAD-seal, encode the frame. -/
def encrypt (pk : Nat) (plaintext : List Nat) (aad : List Nat) (context : List Nat)
    (r : Nat) (nonce : List Nat) : Except EncodingError (List Nat) :=
  let shared_secret := (encapsulate pk r).1
  let kem_ct := (encapsulate pk r).2
  let ctHash := ct_hash kem_ct
  let aes_key := derive_key shared_secret ctHash context
  let aead_ct := aead_seal aes_key nonce plaintext aad
  encode_wire kem_ct nonce aead_ct

/-- Transliteration of `Citadel::decrypt` (= `open`): decode the frame,
decapsulate, re-derive the AEAD key, AEAD-open.  Every failure is the one
`DecryptionError`. -/
def decrypt (sk : Nat) (ciphertext : List Nat) (aad : List Nat) (context : List Nat) :
    Except DecryptionError (List Nat) :=
  match decode_wire ciphertext with
  | .error e => .error e
  | .ok parts =>
    match decapsulate sk parts.kem_ciphertext with
    | .error e => .error e
    | .ok shared_secret =>
      let aes_key := derive_key shared_secret (ct_hash parts.kem_ciphertext) context
      aead_open aes_key parts.nonce parts.aead_ciphertext aad

/-! ## Envelope lemmas -/

/-- Decoding inverts encoding: a frame assembled from a 1120-byte KEM
ciphertext, a 12-byte nonce and an AEAD ciphertext of at least tag size is
decoded back into exactly those components. -/
theorem decode_encode (kem_ct nonce aead_ct : List Nat)
    (hk : kem_ct.length = KEM_CIPHERTEXT_BYTES) (hn : nonce.length = NONCE_BYTES)
    (ha : AEAD_TAG_BYTES ≤ aead_ct.length) :
    decode_wire ([PROTOCOL_VERSION, SUITE_KEM_HYBRID_X25519_MLKEM768, SUITE_AEAD_AES256GCM,
        FLAGS_V1, 0x04, 0x60] ++ (kem_ct ++ nonce ++ aead_ct))
      = .ok { version := PROTOCOL_VERSION, suite_kem := SUITE_KEM_HYBRID_X25519_MLKEM768,
              suite_aead := SUITE_AEAD_AES256GCM, flags := FLAGS_V1,
              kem_ct_len := KEM_CIPHERTEXT_BYTES, kem_ciphertext := kem_ct,
              nonce := nonce, aead_ciphertext := aead_ct } := by
  have hk' : kem_ct.length = 1120 := hk
  have hn' : nonce.length = 12 := hn
  have ha' : 16 ≤ aead_ct.length := ha
  set data := ([PROTOCOL_VERSION, SUITE_KEM_HYBRID_X25519_MLKEM768, SUITE_AEAD_AES256GCM,
    FLAGS_V1, 0x04, 0x60] : List Nat) ++ (kem_ct ++ nonce ++ aead_ct) with hdata
  have hlen : data.length = 1138 + aead_ct.length := by
    simp [hdata, hk', hn', PROTOCOL_VERSION, SUITE_KEM_HYBRID_X25519_MLKEM768,
      SUITE_AEAD_AES256GCM, FLAGS_V1]
    omega
  have hdrop6 : data.drop 6 = kem_ct ++ (nonce ++ aead_ct) := by
    show kem_ct ++ nonce ++ aead_ct = _
    rw [List.append_assoc]
  have hkem : (data.drop 6).take 1120 = kem_ct := by
    rw [hdrop6, List.take_left' hk']
  have hrest : data.drop 1126 = nonce ++ aead_ct := by
    have h1 : (data.drop 6).drop 1120 = data.drop 1126 := by
      rw [List.drop_drop]
    rw [← h1, hdrop6, List.drop_left' hk']
  have hnon : (data.drop 1126).take 12 = nonce := by
    rw [hrest, List.take_left' hn']
  have haead : data.drop 1138 = aead_ct := by
    have h1 : (data.drop 1126).drop 12 = data.drop 1138 := by
      rw [List.drop_drop]
    rw [← h1, hrest, List.drop_left' hn']
  have hg0 : data.getD 0 0 = PROTOCOL_VERSION := rfl
  have hg1 : data.getD 1 0 = SUITE_KEM_HYBRID_X25519_MLKEM768 := rfl
  have hg2 : data.getD 2 0 = SUITE_AEAD_AES256GCM := rfl
  have hg3 : data.getD 3 0 = FLAGS_V1 := rfl
  have hg4 : data.getD 4 0 = 4 := rfl
  have hg5 : data.getD 5 0 = 96 := rfl
  simp only [decode_wire, MIN_CIPHERTEXT_BYTES, HEADER_BYTES, KEM_CIPHERTEXT_BYTES,
    NONCE_BYTES, AEAD_TAG_BYTES, X25519_KEY_BYTES, MLKEM_CIPHERTEXT_BYTES,
    PROTOCOL_VERSION, SUITE_KEM_HYBRID_X25519_MLKEM768, SUITE_AEAD_AES256GCM, FLAGS_V1]
  rw [hlen, hg0, hg1, hg2, hg3, hg4, hg5]
  norm_num [hkem, hnon, haead, PROTOCOL_VERSION, SUITE_KEM_HYBRID_X25519_MLKEM768,
    SUITE_AEAD_AES256GCM, FLAGS_V1]
  rw [if_neg (by omega), if_neg (by omega)]

theorem kemCtBytes_length (r : Nat) : (kemCtBytes r).length = KEM_CIPHERTEXT_BYTES := by
  simp only [kemCtBytes, List.length_cons, List.length_replicate,
    KEM_CIPHERTEXT_BYTES, X25519_KEY_BYTES, MLKEM_CIPHERTEXT_BYTES]

theorem tagBytes_length (key : Nat) (nonce pt aad : List Nat) :
    (tagBytes key nonce pt aad).length = AEAD_TAG_BYTES := by
  simp only [tagBytes, List.length_cons, List.length_replicate, AEAD_TAG_BYTES]

theorem aead_seal_length (key : Nat) (nonce pt aad : List Nat) :
    (aead_seal key nonce pt aad).length = pt.length + AEAD_TAG_BYTES := by
  simp only [aead_seal, List.length_append, tagBytes_length]

/-- The idealized AEAD opens what it sealed (same key, nonce, aad). -/
theorem aead_open_aead_seal (key : Nat) (nonce pt aad : List Nat) :
    aead_open key nonce (aead_seal key nonce pt aad) aad = .ok pt := by
  have hlen : (aead_seal key nonce pt aad).length = pt.length + AEAD_TAG_BYTES :=
    aead_seal_length key nonce pt aad
  have htake : (aead_seal key nonce pt aad).take pt.length = pt := by
    unfold aead_seal
    exact List.take_left pt _
  have hdrop : (aead_seal key nonce pt aad).drop pt.length = tagBytes key nonce pt aad := by
    unfold aead_seal
    exact List.drop_left pt _
  unfold aead_open
  rw [hlen, if_neg (by simp [AEAD_TAG_BYTES]), Nat.add_sub_cancel, htake, hdrop, if_pos rfl]

/-- `Citadel::encrypt` on well-formed inputs: the frame it emits, explicitly. -/
theorem encrypt_eq (pk r : Nat) (m aad ctx nonce : List Nat) :
    encrypt pk m aad ctx r nonce
      = .ok ([PROTOCOL_VERSION, SUITE_KEM_HYBRID_X25519_MLKEM768, SUITE_AEAD_AES256GCM,
          FLAGS_V1, 0x04, 0x60]
          ++ (kemCtBytes r ++ nonce
            ++ aead_seal (derive_key (Nat.pair pk r) (ct_hash (kemCtBytes r)) ctx)
                nonce m aad)) := by
  unfold encrypt encapsulate encode_wire
  rw [if_neg (by rw [kemCtBytes_length]; simp),
      if_neg (by rw [aead_seal_length]; omega)]
  simp [List.append_assoc]

/-- C1: Envelope round-trip — for every keypair `(pk, sk)` produced by keygen,
every plaintext `m`, every `aad` and every context `ctx` (and every nonce of
the correct length and encapsulation randomness), `open(sk, seal(pk, m, aad,
ctx), aad, ctx)` returns `m`. -/
theorem envelope_roundtrip (seed r : Nat) (m aad ctx nonce : List Nat)
    (hn : nonce.length = NONCE_BYTES) (ct : List Nat)
    (hct : encrypt (keygen seed).1 m aad ctx r nonce = .ok ct) :
    decrypt (keygen seed).2 ct aad ctx = .ok m := by
  rw [encrypt_eq] at hct
  have hct' : ct = _ := (Except.ok.inj hct).symm
  subst hct'
  unfold decrypt
  rw [decode_encode _ _ _ (kemCtBytes_length r) hn
    (by rw [aead_seal_length]; omega)]
  have hdecap : decapsulate (keygen seed).2 (kemCtBytes r) = .ok (Nat.pair seed r) := by
    unfold decapsulate
    rw [if_neg (by rw [kemCtBytes_length]; simp)]
    rfl
  simp only [hdecap]
  have hkg1 : (keygen seed).1 = seed := rfl
  rw [hkg1]
  exact aead_open_aead_seal _ nonce m aad

/-- Decomposition of tag equality into equality of the MAC'd components'
encodings. -/
theorem tagBytes_eq_iff (k k' : Nat) (n n' p p' a a' : List Nat) :
    tagBytes k n p a = tagBytes k' n' p' a' ↔
      k = k' ∧ encodeBytes n = encodeBytes n' ∧ encodeBytes p = encodeBytes p'
        ∧ encodeBytes a = encodeBytes a' := by
  simp [tagBytes, Nat.pair_eq_pair, and_assoc]

/-- Opening a sealed frame with a mismatched key or aad fails. -/
theorem aead_open_mismatch (key key' : Nat) (nonce pt aad aad' : List Nat)
    (h : tagBytes key nonce pt aad ≠ tagBytes key' nonce pt aad') :
    aead_open key' nonce (aead_seal key nonce pt aad) aad' = .error {} := by
  have hlen : (aead_seal key nonce pt aad).length = pt.length + AEAD_TAG_BYTES :=
    aead_seal_length key nonce pt aad
  have htake : (aead_seal key nonce pt aad).take pt.length = pt := by
    unfold aead_seal
    exact List.take_left pt _
  have hdrop : (aead_seal key nonce pt aad).drop pt.length = tagBytes key nonce pt aad := by
    unfold aead_seal
    exact List.drop_left pt _
  unfold aead_open
  rw [hlen, if_neg (by simp [AEAD_TAG_BYTES]), Nat.add_sub_cancel, htake, hdrop, if_neg h]

/-- Reduction of `decrypt` applied (with possibly mismatched secret key, aad
and context) to a frame produced by `encrypt`. -/
theorem decrypt_encrypt_reduce (seed r sk' : Nat) (m aad ctx aad' ctx' nonce : List Nat)
    (hn : nonce.length = NONCE_BYTES) (ct : List Nat)
    (hct : encrypt (keygen seed).1 m aad ctx r nonce = .ok ct) :
    decrypt sk' ct aad' ctx' =
      aead_open (derive_key (Nat.pair sk' r) (ct_hash (kemCtBytes r)) ctx') nonce
        (aead_seal (derive_key (Nat.pair seed r) (ct_hash (kemCtBytes r)) ctx) nonce m aad)
        aad' := by
  rw [encrypt_eq] at hct
  have hct' : ct = _ := (Except.ok.inj hct).symm
  subst hct'
  unfold decrypt
  rw [decode_encode _ _ _ (kemCtBytes_length r) hn
    (by rw [aead_seal_length]; omega)]
  have hdecap : decapsulate sk' (kemCtBytes r) = .ok (Nat.pair sk' r) := by
    unfold decapsulate
    rw [if_neg (by rw [kemCtBytes_length]; simp)]
    rfl
  simp only [hdecap]
  have hkg1 : (keygen seed).1 = seed := rfl
  rw [hkg1]

theorem IsBytes_append {xs ys : List Nat} (hx : IsBytes xs) (hy : IsBytes ys) :
    IsBytes (xs ++ ys) := by
  intro b hb
  rcases List.mem_append.mp hb with h | h
  · exact hx b h
  · exact hy b h

theorem IsBytes_info (kem_ct ctx : List Nat) (hc : IsBytes ctx) :
    IsBytes (PROTOCOL_ID ++ (("|aes|".toList).map Char.toNat) ++ ct_hash kem_ct ++ ctx) := by
  refine IsBytes_append (IsBytes_append (IsBytes_append ?_ ?_) ?_) hc
  · decide
  · decide
  · intro b hb
    simp only [ct_hash, List.mem_cons] at hb
    rcases hb with h | h
    · omega
    · have := List.eq_of_mem_replicate h
      omega

/-- The model KDF is injective in the context (for byte contexts) and in the
shared secret. -/
theorem derive_key_inj_context (ss : Nat) (kem_ct ctx ctx' : List Nat)
    (hc : IsBytes ctx) (hc' : IsBytes ctx') (hne : ctx ≠ ctx') :
    derive_key ss (ct_hash kem_ct) ctx ≠ derive_key ss (ct_hash kem_ct) ctx' := by
  intro h
  unfold derive_key at h
  have h2 := (Nat.pair_eq_pair.mp h).2
  have h3 := encodeBytes_inj (IsBytes_info kem_ct ctx hc) (IsBytes_info kem_ct ctx' hc') h2
  exact hne (List.append_cancel_left h3)

theorem derive_key_inj_secret (ss ss' : Nat) (ctHash ctx : List Nat) (hne : ss ≠ ss') :
    derive_key ss ctHash ctx ≠ derive_key ss' ctHash ctx := by
  intro h
  exact hne (Nat.pair_eq_pair.mp h).1

/-- Every rejection of `decode_wire` is the same opaque error. -/
theorem decode_wire_header_reject (data : List Nat)
    (h : data.getD 0 0 ≠ PROTOCOL_VERSION ∨
         data.getD 1 0 ≠ SUITE_KEM_HYBRID_X25519_MLKEM768 ∨
         data.getD 2 0 ≠ SUITE_AEAD_AES256GCM ∨
         data.getD 3 0 ≠ FLAGS_V1 ∨
         256 * data.getD 4 0 + data.getD 5 0 ≠ KEM_CIPHERTEXT_BYTES) :
    decode_wire data = .error {} := by
  simp only [decode_wire]
  split_ifs <;> first | rfl | tauto

set_option maxRecDepth 100000 in
/-- Closed witness for `envelope_roundtrip` at a concrete keypair, plaintext,
aad, context, randomness and nonce. -/
theorem envelope_roundtrip_witness :
    (List.replicate 12 0).length = NONCE_BYTES ∧
    decrypt (keygen 0).2
      ((encrypt (keygen 0).1 [1, 2] [3] [4] 0 (List.replicate 12 0)).toOption.getD [])
      [3] [4] = .ok [1, 2] := by
  refine ⟨rfl, envelope_roundtrip 0 0 [1, 2] [3] [4] (List.replicate 12 0) rfl _ ?_⟩
  rfl

/-- C2: Uniform opaque decryption error — every failure of `open` (input
shorter than the 1154-byte minimum, any header byte differing from the v1
constants — including the big-endian `kem_ct_len` field, AEAD ciphertext
shorter than the 16-byte tag, tag failure through wrong aad, wrong context,
or wrong secret key) returns the single opaque `DecryptionError`, and the
error's display string is identical across all of these failure modes. -/
theorem open_uniform_opaque_error :
    (∀ e e' : DecryptionError, e = e' ∧ e.display = e'.display ∧ e.display = "decryption failed") ∧
    (∀ sk data aad ctx, data.length < MIN_CIPHERTEXT_BYTES →
        decrypt sk data aad ctx = .error {}) ∧
    (∀ sk data aad ctx,
        (data.getD 0 0 ≠ PROTOCOL_VERSION ∨
         data.getD 1 0 ≠ SUITE_KEM_HYBRID_X25519_MLKEM768 ∨
         data.getD 2 0 ≠ SUITE_AEAD_AES256GCM ∨
         data.getD 3 0 ≠ FLAGS_V1 ∨
         256 * data.getD 4 0 + data.getD 5 0 ≠ KEM_CIPHERTEXT_BYTES) →
        decrypt sk data aad ctx = .error {}) ∧
    (∀ key nonce ct aad, ct.length < AEAD_TAG_BYTES →
        aead_open key nonce ct aad = .error {}) ∧
    (∀ seed r m aad ctx aad' nonce ct, nonce.length = NONCE_BYTES →
        IsBytes aad → IsBytes aad' → aad' ≠ aad →
        encrypt (keygen seed).1 m aad ctx r nonce = .ok ct →
        decrypt (keygen seed).2 ct aad' ctx = .error {}) ∧
    (∀ seed r m aad ctx ctx' nonce ct, nonce.length = NONCE_BYTES →
        IsBytes ctx → IsBytes ctx' → ctx' ≠ ctx →
        encrypt (keygen seed).1 m aad ctx r nonce = .ok ct →
        decrypt (keygen seed).2 ct aad ctx' = .error {}) ∧
    (∀ seed r sk' m aad ctx nonce ct, nonce.length = NONCE_BYTES → sk' ≠ seed →
        encrypt (keygen seed).1 m aad ctx r nonce = .ok ct →
        decrypt sk' ct aad ctx = .error {}) := by
  refine ⟨?_, ?_, ?_, ?_, ?_, ?_, ?_⟩
  · intro e e'
    cases e
    cases e'
    exact ⟨rfl, rfl, rfl⟩
  · intro sk data aad ctx h
    have hd : decode_wire data = .error {} := by
      unfold decode_wire
      rw [if_pos h]
    unfold decrypt
    rw [hd]
  · intro sk data aad ctx h
    have hd : decode_wire data = .error {} := decode_wire_header_reject data h
    unfold decrypt
    rw [hd]
  · intro key nonce ct aad h
    unfold aead_open
    rw [if_pos h]
  · intro seed r m aad ctx aad' nonce ct hn ha ha' hne hct
    rw [decrypt_encrypt_reduce seed r _ m aad ctx aad' ctx nonce hn ct hct]
    apply aead_open_mismatch
    intro htag
    have h4 := ((tagBytes_eq_iff _ _ _ _ _ _ _ _).mp htag).2.2.2
    exact hne (encodeBytes_inj ha ha' h4).symm
  · intro seed r m aad ctx ctx' nonce ct hn hc hc' hne hct
    rw [decrypt_encrypt_reduce seed r _ m aad ctx aad ctx' nonce hn ct hct]
    apply aead_open_mismatch
    intro htag
    have hkey := ((tagBytes_eq_iff _ _ _ _ _ _ _ _).mp htag).1
    have hsk : ((keygen seed).2 : Nat) = seed := rfl
    rw [hsk] at hkey
    exact derive_key_inj_context (Nat.pair seed r) (kemCtBytes r) ctx ctx' hc hc'
      (fun h => hne h.symm) hkey
  · intro seed r sk' m aad ctx nonce ct hn hne hct
    rw [decrypt_encrypt_reduce seed r sk' m aad ctx aad ctx nonce hn ct hct]
    apply aead_open_mismatch
    intro htag
    have hkey := ((tagBytes_eq_iff _ _ _ _ _ _ _ _).mp htag).1
    refine derive_key_inj_secret (Nat.pair seed r) (Nat.pair sk' r) _ ctx ?_ hkey
    intro h
    exact hne (Nat.pair_eq_pair.mp h).1.symm

set_option maxRecDepth 100000 in
/-- Closed witness for `open_uniform_opaque_error`: a short input and a
wrong-aad open, both failing with the opaque error, at concrete inputs. -/
theorem open_uniform_opaque_error_witness :
    decrypt 0 [1, 2, 3] [] [] = .error {} ∧
    decrypt (keygen 0).2
      ((encrypt (keygen 0).1 [1] [2] [3] 0 (List.replicate 12 0)).toOption.getD [])
      [9] [3] = .error {} := by
  constructor
  · exact open_uniform_opaque_error.2.1 0 [1, 2, 3] [] [] (by decide)
  · exact open_uniform_opaque_error.2.2.2.2.1 0 0 [1] [2] [3] [9] (List.replicate 12 0) _
      rfl (by decide) (by decide) (by decide) rfl

/-! ## Keystore types (citadel-keystore/src/types.rs) -/

inductive KeyType
  | Root
  | Domain
  | KeyEncrypting
  | DataEncrypting
  deriving DecidableEq, Repr

inductive KeyState
  | Pending
  | Active
  | Rotated
  | Expired
  | Revoked
  | Destroyed
  deriving DecidableEq, BEq, Repr

def KeyState.can_encrypt : KeyState → Bool
  | .Active => true
  | _ => false

def KeyState.can_decrypt : KeyState → Bool
  | .Active => true
  | .Rotated => true
  | _ => false

def KeyState.valid_transitions : KeyState → List KeyState
  | .Pending => [.Active, .Destroyed]
  | .Active => [.Rotated, .Revoked, .Expired]
  | .Rotated => [.Expired]
  | .Expired => [.Destroyed]
  | .Revoked => [.Destroyed]
  | .Destroyed => []

def KeyState.can_transition_to (s : KeyState) (target : KeyState) : Bool :=
  s.valid_transitions.contains target

/-- `impl Display for KeyState`. -/
def KeyState.display : KeyState → String
  | .Pending => "PENDING"
  | .Active => "ACTIVE"
  | .Rotated => "ROTATED"
  | .Expired => "EXPIRED"
  | .Revoked => "REVOKED"
  | .Destroyed => "DESTROYED"

/-- A key version.  The serialized key material is stored as a string; the
model writes decimal instead of hex (both are bijective codings of the
material), which preserves the "DESTROYED" sentinel behavior. -/
structure KeyVersion where
  version : Nat
  created_at : Nat
  public_key_hex : String
  secret_key_hex : String
  deriving DecidableEq, Repr

/-- Complete metadata for a managed key.  Timestamps are seconds. -/
structure KeyMetadata where
  id : String
  name : String
  key_type : KeyType
  state : KeyState
  policy_id : Option String
  parent_id : Option String
  created_at : Nat
  updated_at : Nat
  activated_at : Option Nat
  rotated_at : Option Nat
  revoked_at : Option Nat
  destroyed_at : Option Nat
  versions : List KeyVersion
  current_version : Nat
  usage_count : Nat
  tags : List (String × String)
  deriving DecidableEq, Repr

def KeyMetadata.current_key_version (meta : KeyMetadata) : Option KeyVersion :=
  meta.versions.find? (fun v => v.version == meta.current_version)

/-! ## Policy engine (citadel-keystore/src/policy.rs) -/

inductive RotationTrigger
  | Age (d : Nat)
  | UsageCount (n : Nat)
  | ExternalSignal (s : String)
  | ParentRotated
  deriving DecidableEq, Repr

structure KeyPolicy where
  id : String
  name : String
  applies_to : List KeyType
  rotation_triggers : List RotationTrigger
  rotation_grace_period : Nat
  max_lifetime : Option Nat
  max_usage_count : Option Nat
  auto_rotate : Bool
  min_versions_retained : Nat
  deriving DecidableEq, Repr

inductive PolicyVerdict
  | Compliant
  | RotationNeeded (reason : String)
  | Warning (reason : String)
  | UsageLimitExceeded (count : Nat) (limit : Nat)
  deriving DecidableEq, Repr

def PolicyVerdict.needs_rotation : PolicyVerdict → Bool
  | .RotationNeeded _ => true
  | .UsageLimitExceeded _ _ => true
  | _ => false

/-- `format_duration` over a chrono duration (whole seconds). -/
def format_chrono_duration (secs : Int) : String :=
  let days := secs / 86400
  if days > 0 then toString days ++ "d" else toString (secs / 3600) ++ "h"

/-- `format_std_duration` over a std duration (seconds). -/
def format_std_duration (secs : Nat) : String :=
  let days := secs / 86400
  if days > 0 then toString days ++ "d" else toString (secs / 3600) ++ "h"

/-- The 90% warning threshold `(x as f64 * 0.9) as u64`, modelled as exact
truncated rational multiplication. -/
def warnThreshold (x : Nat) : Nat := 9 * x / 10

/-- The `for trigger in &policy.rotation_triggers` loop of `evaluate`:
per Age trigger, in order — rotation needed at the trigger age, warning at
90% of it; non-Age triggers are skipped. -/
def evalAgeTriggers (triggers : List RotationTrigger) (age : Int) : Option PolicyVerdict :=
  match triggers with
  | [] => none
  | .Age max_age :: rest =>
    if age ≥ (max_age : Int) then
      some (.RotationNeeded ("age " ++ format_chrono_duration age ++ " exceeds max "
        ++ format_std_duration max_age))
    else if age ≥ (warnThreshold max_age : Int) then
      some (.Warning ("age " ++ format_chrono_duration age ++ " approaching max "
        ++ format_std_duration max_age))
    else evalAgeTriggers rest age
  | _ :: rest => evalAgeTriggers rest age

/-- The usage-count rules of `evaluate` (`if let Some(max_count) = ...`). -/
def evalUsage (policy : KeyPolicy) (key : KeyMetadata) : Option PolicyVerdict :=
  match policy.max_usage_count with
  | none => none
  | some max_count =>
    if key.usage_count ≥ max_count then
      some (.UsageLimitExceeded key.usage_count max_count)
    else if key.usage_count ≥ warnThreshold max_count then
      some (.Warning ("usage " ++ toString key.usage_count ++ "/" ++ toString max_count
        ++ " (" ++ toString (key.usage_count * 100 / max_count) ++ "%)"))
    else none

/-- Transliteration of `policy::evaluate` with the clock made explicit:
non-Active keys are compliant; then usage rules; then age triggers. -/
def evaluate (policy : KeyPolicy) (key : KeyMetadata) (now : Nat) : PolicyVerdict :=
  if key.state ≠ .Active then .Compliant else
  match evalUsage policy key with
  | some v => v
  | none =>
    match key.activated_at with
    | none => .Compliant
    | some activated =>
      (evalAgeTriggers policy.rotation_triggers ((now : Int) - (activated : Int))).getD .Compliant

/-! ## Threat level and policy adapter (citadel-keystore/src/threat.rs) -/

inductive ThreatLevel
  | Low
  | Guarded
  | Elevated
  | High
  | Critical
  deriving DecidableEq, Repr

def ThreatLevel.value : ThreatLevel → Nat
  | .Low => 1
  | .Guarded => 2
  | .Elevated => 3
  | .High => 4
  | .Critical => 5

def ThreatLevel.label : ThreatLevel → String
  | .Low => "LOW"
  | .Guarded => "GUARDED"
  | .Elevated => "ELEVATED"
  | .High => "HIGH"
  | .Critical => "CRITICAL"

/-- The scaling factors of a threat level, as exact fractions
(numerator, denominator). -/
structure ScalingFactors where
  age : Nat × Nat
  grace : Nat × Nat
  lifetime : Nat × Nat
  usage : Nat × Nat
  deriving Repr

def scaling_factor : ThreatLevel → ScalingFactors
  | .Low => ⟨(1, 1), (1, 1), (1, 1), (1, 1)⟩
  | .Guarded => ⟨(3, 4), (4, 5), (4, 5), (4, 5)⟩
  | .Elevated => ⟨(1, 2), (1, 2), (3, 5), (3, 5)⟩
  | .High => ⟨(3, 10), (3, 10), (2, 5), (2, 5)⟩
  | .Critical => ⟨(1, 5), (1, 10), (1, 4), (1, 4)⟩

/-- `(n as f64 * factor) as u64`: truncating scale, modelled as the exact
truncated fraction.  (The f64 product can differ from the exact rational in
its last ulp; the floor/maximum properties proved below are insensitive to
that.) -/
def scaleNat (n : Nat) (f : Nat × Nat) : Nat := n * f.1 / f.2

def FLOOR_ROTATION_AGE : Nat := 86400

def FLOOR_GRACE_PERIOD : Nat := 43200

def FLOOR_MAX_LIFETIME : Nat := 30 * 86400

def FLOOR_USAGE_COUNT : Nat := 100

/-- Transliteration of `PolicyAdapter::adapt`: scale Age triggers, grace
period, max lifetime and usage limit by the level's factors, each clamped
below by its operational floor; force `auto_rotate` at Level 3+; rename. -/
def PolicyAdapter.adapt (base : KeyPolicy) (level : ThreatLevel) : KeyPolicy :=
  let factor := scaling_factor level
  { base with
    rotation_triggers := base.rotation_triggers.map (fun t =>
      match t with
      | .Age d => .Age (max (scaleNat d factor.age) FLOOR_ROTATION_AGE)
      | other => other)
    rotation_grace_period := max (scaleNat base.rotation_grace_period factor.grace)
      FLOOR_GRACE_PERIOD
    max_lifetime := base.max_lifetime.map
      (fun d => max (scaleNat d factor.lifetime) FLOOR_MAX_LIFETIME)
    max_usage_count := base.max_usage_count.map
      (fun c => max (scaleNat c factor.usage) FLOOR_USAGE_COUNT)
    auto_rotate := if ThreatLevel.Elevated.value ≤ level.value then true else base.auto_rotate
    name := base.name ++ " [threat:" ++ level.label ++ "]" }

/-! ## Threat assessor (citadel-keystore/src/threat.rs) -/

inductive ThreatEventKind
  | DecryptionFailure
  | RapidAccessPattern
  | AnomalousAccess
  | ExternalAdvisory
  | AuthFailure
  | KeyEnumeration
  | ManualEscalation
  | ManualDeescalation
  | Heartbeat
  deriving DecidableEq, Repr

structure ThreatEvent where
  timestamp : Nat
  kind : ThreatEventKind
  severity : ℚ
  detail : Option String
  deriving DecidableEq, Repr

/-- `ThreatEvent::new`: severity is clamped to [0, 10] on construction. -/
def ThreatEvent.new (kind : ThreatEventKind) (severity : ℚ) (now : Nat) : ThreatEvent :=
  ⟨now, kind, min (max severity 0) 10, none⟩

/-- Threat assessor configuration; `thresholds` is the `[f64; 4]` array as a
4-tuple `(t0, t1, t2, t3)`. -/
structure ThreatConfig where
  window : Nat
  decay_rate : ℚ
  thresholds : ℚ × ℚ × ℚ × ℚ
  max_events : Nat
  hysteresis : ℚ
  deriving Repr

def ThreatConfig.default : ThreatConfig :=
  ⟨3600, 19/20, (5, 15, 30, 50), 10000, 1/5⟩

/-- Transliteration of `compute_score`: sum over the window of
`severity * decay_rate ^ age_minutes`, with `age_minutes` the (clamped)
whole minutes since the event. -/
def compute_score (events : List ThreatEvent) (cfg : ThreatConfig) (now : Nat) : ℚ :=
  events.foldl (fun score e =>
    score + e.severity * cfg.decay_rate ^ ((now - e.timestamp) / 60)) 0

/-- The raw level cascade of `recompute_level` (escalation thresholds). -/
def rawLevel (cfg : ThreatConfig) (score : ℚ) : ThreatLevel :=
  if score ≥ cfg.thresholds.2.2.2 then .Critical
  else if score ≥ cfg.thresholds.2.2.1 then .High
  else if score ≥ cfg.thresholds.2.1 then .Elevated
  else if score ≥ cfg.thresholds.1 then .Guarded
  else .Low

/-- The de-escalation cascade of `recompute_level` (thresholds relaxed by the
hysteresis factor `1 - h`). -/
def deEscLevel (cfg : ThreatConfig) (score : ℚ) : ThreatLevel :=
  if score ≥ cfg.thresholds.2.2.2 * (1 - cfg.hysteresis) then .Critical
  else if score ≥ cfg.thresholds.2.2.1 * (1 - cfg.hysteresis) then .High
  else if score ≥ cfg.thresholds.2.1 * (1 - cfg.hysteresis) then .Elevated
  else if score ≥ cfg.thresholds.1 * (1 - cfg.hysteresis) then .Guarded
  else .Low

/-- The level-update rule of `recompute_level` (no manual override):
escalate fast to the raw level, de-escalate slowly to the relaxed level,
otherwise hold. -/
def nextLevel (cfg : ThreatConfig) (current : ThreatLevel) (score : ℚ) : ThreatLevel :=
  let raw := rawLevel cfg score
  let de := deEscLevel cfg score
  if current.value < raw.value then raw
  else if de.value < current.value then de
  else current

/-- The threat assessor's mutable state (the audit sink and transition
history, which do not affect level computation, are omitted). -/
structure ThreatAssessor where
  config : ThreatConfig
  events : List ThreatEvent
  current_level : ThreatLevel
  manual_override : Option ThreatLevel
  deriving Repr

/-- One-step bump of the manual override on `ManualEscalation`. -/
def ThreatLevel.bump : ThreatLevel → ThreatLevel
  | .Low => .Guarded
  | .Guarded => .Elevated
  | .Elevated => .High
  | .High => .Critical
  | .Critical => .Critical

/-- Transliteration of `prune_old_events`: pop from the front while older
than `now - window`, then pop from the front while over `max_events`. -/
def prune_old_events (events : List ThreatEvent) (cfg : ThreatConfig) (now : Nat) :
    List ThreatEvent :=
  let cutoff := now - cfg.window
  let evs := events.dropWhile (fun e => e.timestamp < cutoff)
  evs.drop (evs.length - cfg.max_events)

/-- Transliteration of `recompute_level` (the transition-history append and
audit record on a level change do not affect the state relevant here). -/
def recompute_level (a : ThreatAssessor) (now : Nat) : ThreatAssessor :=
  let score := compute_score a.events a.config now
  let new_level :=
    match a.manual_override with
    | some manual => manual
    | none => nextLevel a.config a.current_level score
  { a with current_level := new_level }

/-- Transliteration of `record_event`: manual escalation/de-escalation
handling, push, prune, recompute. -/
def record_event (a : ThreatAssessor) (e : ThreatEvent) (now : Nat) : ThreatAssessor :=
  let a1 :=
    match e.kind with
    | .ManualEscalation => { a with manual_override := some a.current_level.bump }
    | .ManualDeescalation => { a with manual_override := none }
    | _ => a
  let a2 := { a1 with events := prune_old_events (a1.events ++ [e]) a1.config now }
  recompute_level a2 now

/-- `current_level()`: the manual override, if set, supersedes. -/
def ThreatAssessor.effective_level (a : ThreatAssessor) : ThreatLevel :=
  a.manual_override.getD a.current_level

/-! ## Audit events and integrity chain (citadel-keystore/src/audit.rs) -/

inductive AuditAction
  | KeyGenerated
  | KeyActivated
  | KeyRotated (new_version : Nat)
  | KeyExpired (reason : String)
  | KeyRevoked (reason : String)
  | KeyDestroyed
  | EncryptionPerformed (key_version : Nat)
  | DecryptionPerformed (key_version : Nat)
  | DecryptionFailed (key_version : Nat)
  | PolicyRegistered (policy_id : String)
  | PolicyEvaluated (verdict : String)
  | ExpirationCheckRun (expired_count : Nat) (warning_count : Nat)
  deriving DecidableEq, Repr

structure AuditEvent where
  timestamp : Nat
  key_id : Option String
  key_type : Option KeyType
  key_state : Option KeyState
  action : AuditAction
  actor : String
  success : Bool
  detail : Option String
  sequence : Option Nat
  prev_hash : Option String
  deriving DecidableEq, Repr

def AuditEvent.system_event (action : AuditAction) (now : Nat) : AuditEvent :=
  ⟨now, none, none, none, action, "system", true, none, none, none⟩

def AuditEvent.key_event (key_id : String) (kt : KeyType) (ks : KeyState)
    (action : AuditAction) (now : Nat) : AuditEvent :=
  ⟨now, some key_id, some kt, some ks, action, "system", true, none, none, none⟩

/-- The integrity chain's `(sequence, prev_hash)` state. -/
structure ChainState where
  sequence : Nat
  prev_hash : String
  deriving DecidableEq, Repr

/-- `IntegrityChainSink::new`: genesis state.  `hash` models the hex SHA-256
digest of a string (external sha2 library). -/
def chainInit (hash : String → String) : ChainState :=
  ⟨0, hash "citadel-audit-genesis"⟩

/-- One `record` step of `IntegrityChainSink`: stamp the event with the
current sequence and prev_hash, hash the stamped event's JSON for the next
link, advance the sequence.  `json` models `serde_json::to_string` (total in
the model; the source ignores a serialization failure, which cannot occur
for this struct). -/
def chainStep (hash : String → String) (json : AuditEvent → String)
    (st : ChainState) (e : AuditEvent) : AuditEvent × ChainState :=
  let stamped := { e with sequence := some st.sequence, prev_hash := some st.prev_hash }
  (stamped, ⟨st.sequence + 1, hash (json stamped)⟩)

def chainRunFrom (hash : String → String) (json : AuditEvent → String)
    (st : ChainState) : List AuditEvent → List AuditEvent
  | [] => []
  | e :: es =>
    let step := chainStep hash json st e
    step.1 :: chainRunFrom hash json step.2 es

/-- The stamped stream produced by routing `events`, in order, through a
fresh `IntegrityChainSink`. -/
def chainRun (hash : String → String) (json : AuditEvent → String)
    (events : List AuditEvent) : List AuditEvent :=
  chainRunFrom hash json (chainInit hash) events

/-! ## Keystore façade (citadel-keystore/src/keystore.rs)

The keystore's storage backend and audit sink are externalized: each
operation takes the relevant stored record(s) and returns, along with its
result, the list of storage `put`s it performed and the audit actions it
recorded.  The clock, generated key material and encryption randomness are
explicit parameters. -/

/-- Serialization of envelope key material into the stored string (hex in the
source, decimal here — both bijective; "DESTROYED" is the purge sentinel and
fails to parse in either coding). -/
def encodeKeyMaterial (k : Nat) : String := toString k

def charDigit (c : Char) : Option Nat :=
  if c = '0' then some 0 else if c = '1' then some 1 else if c = '2' then some 2
  else if c = '3' then some 3 else if c = '4' then some 4 else if c = '5' then some 5
  else if c = '6' then some 6 else if c = '7' then some 7 else if c = '8' then some 8
  else if c = '9' then some 9 else none

def decodeDigits : List Char → Nat → Option Nat
  | [], acc => some acc
  | c :: cs, acc =>
    match charDigit c with
    | some d => decodeDigits cs (10 * acc + d)
    | none => none

/-- Parse stored key material back into envelope key material; fails on the
"DESTROYED" sentinel (and any other non-numeral), like the hex decode +
fixed-length key parse of the source. -/
def decodeKeyMaterial (s : String) : Option Nat :=
  match s.data with
  | [] => none
  | l => decodeDigits l 0

structure EncryptedBlob where
  key_id : String
  key_version : Nat
  ciphertext : List Nat
  encrypted_at : Nat
  deriving DecidableEq, Repr

def lookupPolicy (policies : List (String × KeyPolicy)) (pid : String) : Option KeyPolicy :=
  (policies.find? (fun p => p.1 == pid)).map (fun p => p.2)

/-- `Keystore::effective_policy_for`: the threat-adapted policy, when the key
names a registered policy; `none` otherwise. -/
def effective_policy_for (policies : List (String × KeyPolicy)) (level : ThreatLevel)
    (meta : KeyMetadata) : Option KeyPolicy :=
  meta.policy_id.bind (fun pid =>
    (lookupPolicy policies pid).map (fun base => PolicyAdapter.adapt base level))

structure EncryptOutcome where
  result : Except String EncryptedBlob
  storage_writes : List KeyMetadata
  audits : List AuditAction
  deriving Repr

/-- The post-gate portion of `Keystore::encrypt`: look up the current
version, parse its public key, envelope-seal, bump `usage_count`, persist,
audit `EncryptionPerformed`. -/
def encryptProceed (meta : KeyMetadata) (plaintext aad ctx : List Nat)
    (now r : Nat) (nonce : List Nat) (gateAudits : List AuditAction) : EncryptOutcome :=
  match meta.current_key_version with
  | none => ⟨.error "no current version", [], gateAudits⟩
  | some version =>
    match decodeKeyMaterial version.public_key_hex with
    | none => ⟨.error "parse public key failed", [], gateAudits⟩
    | some pk =>
      match encrypt pk plaintext aad ctx r nonce with
      | .error _ => ⟨.error "seal: encoding error", [], gateAudits⟩
      | .ok ciphertext =>
        let bumped := { meta with usage_count := meta.usage_count + 1, updated_at := now }
        ⟨.ok ⟨meta.id, meta.current_version, ciphertext, now⟩,
         [bumped],
         gateAudits ++ [.EncryptionPerformed meta.current_version]⟩

/-- Transliteration of `Keystore::encrypt`: state check, then the enforcement
gate over the threat-adapted policy (block on RotationNeeded /
UsageLimitExceeded with a BLOCKED audit, warn-and-proceed on Warning,
proceed on Compliant or when no adapted policy exists), then the envelope
encryption path. -/
def keystoreEncrypt (policies : List (String × KeyPolicy)) (level : ThreatLevel)
    (meta : KeyMetadata) (plaintext aad ctx : List Nat) (now r : Nat)
    (nonce : List Nat) : EncryptOutcome :=
  if ¬ meta.state.can_encrypt then
    ⟨.error ("key " ++ meta.id ++ " is " ++ meta.state.display ++ ", cannot encrypt"), [], []⟩
  else
    match effective_policy_for policies level meta with
    | some adapted =>
      match evaluate adapted meta now with
      | .RotationNeeded reason =>
        ⟨.error ("policy violation: " ++ reason ++ ". Rotate key before encrypting."),
         [], [.PolicyEvaluated ("BLOCKED: " ++ reason)]⟩
      | .UsageLimitExceeded count limit =>
        ⟨.error ("policy violation: usage " ++ toString count ++ "/" ++ toString limit
            ++ " exceeded. Rotate key before encrypting."),
         [], [.PolicyEvaluated ("BLOCKED: usage " ++ toString count ++ "/" ++ toString limit)]⟩
      | .Warning reason =>
        encryptProceed meta plaintext aad ctx now r nonce
          [.PolicyEvaluated ("WARNING: " ++ reason)]
      | .Compliant => encryptProceed meta plaintext aad ctx now r nonce []
    | none => encryptProceed meta plaintext aad ctx now r nonce []

structure DecryptOutcome where
  result : Except String (List Nat)
  threat_events : List (ThreatEventKind × ℚ)
  audits : List AuditAction
  deriving Repr

/-- Transliteration of `Keystore::decrypt`: metadata lookup, state check,
version lookup, secret-key parse, envelope-open; an envelope failure records
a `DecryptionFailure` threat event of severity 3.0 and a `DecryptionFailed`
audit event and returns the uniform "decryption failed" error. -/
def keystoreDecrypt (storage : List (String × KeyMetadata)) (blob : EncryptedBlob)
    (aad ctx : List Nat) : DecryptOutcome :=
  match (storage.find? (fun p => p.1 == blob.key_id)).map (fun p => p.2) with
  | none => ⟨.error ("key not found: " ++ blob.key_id), [], []⟩
  | some meta =>
    if ¬ meta.state.can_decrypt then
      ⟨.error ("key " ++ blob.key_id ++ " is " ++ meta.state.display ++ ", cannot decrypt"),
       [], []⟩
    else
      match meta.versions.find? (fun v => v.version == blob.key_version) with
      | none => ⟨.error ("version " ++ toString blob.key_version ++ " not found"), [], []⟩
      | some version =>
        match decodeKeyMaterial version.secret_key_hex with
        | none => ⟨.error "parse secret key failed", [], []⟩
        | some sk =>
          match decrypt sk blob.ciphertext aad ctx with
          | .error _ =>
            ⟨.error "decryption failed",
             [(.DecryptionFailure, 3)],
             [.DecryptionFailed blob.key_version]⟩
          | .ok plaintext =>
            ⟨.ok plaintext, [], [.DecryptionPerformed blob.key_version]⟩

/-- `Keystore::generate`: fresh metadata in state Pending with version 1 and
usage 0 (the random id and generated keypair are parameters). -/
def keystoreGenerate (id name : String) (key_type : KeyType)
    (policy_id parent_id : Option String) (now pkm skm : Nat) : KeyMetadata :=
  { id := id
    name := name
    key_type := key_type
    state := .Pending
    policy_id := policy_id
    parent_id := parent_id
    created_at := now
    updated_at := now
    activated_at := none
    rotated_at := none
    revoked_at := none
    destroyed_at := none
    versions := [⟨1, now, encodeKeyMaterial pkm, encodeKeyMaterial skm⟩]
    current_version := 1
    usage_count := 0
    tags := [] }

/-- `Keystore::transition` helper: lawful transitions only. -/
def keystoreTransition (meta : KeyMetadata) (target : KeyState) (now : Nat) :
    Except String KeyMetadata :=
  if ¬ meta.state.can_transition_to target then
    .error ("invalid transition for " ++ meta.id ++ ": " ++ meta.state.display
      ++ " → " ++ target.display)
  else .ok { meta with state := target, updated_at := now }

/-- `Keystore::activate`: Pending → Active, stamping `activated_at`. -/
def keystoreActivate (meta : KeyMetadata) (now : Nat) : Except String KeyMetadata :=
  match keystoreTransition meta .Active now with
  | .error e => .error e
  | .ok m => .ok { m with activated_at := some now }

structure RotateOutcome where
  result : Except String KeyMetadata
  storage_writes : List KeyMetadata
  deriving Repr

/-- Transliteration of `Keystore::rotate`: requires Active; appends the new
version numbered `current_version + 1`, stamps `rotated_at`, persists as
Rotated, then re-persists the same record as Active (with `activated_at`
restamped and `rotated_at` cleared). -/
def keystoreRotate (meta : KeyMetadata) (now pkm skm : Nat) : RotateOutcome :=
  if meta.state ≠ .Active then
    ⟨.error ("key not active: " ++ meta.id), []⟩
  else
    let new_version_num := meta.current_version + 1
    let new_version : KeyVersion :=
      ⟨new_version_num, now, encodeKeyMaterial pkm, encodeKeyMaterial skm⟩
    let rotated := { meta with
      state := KeyState.Rotated
      rotated_at := some now
      updated_at := now
      versions := meta.versions ++ [new_version]
      current_version := new_version_num }
    let reactivated := { rotated with
      state := KeyState.Active
      activated_at := some now
      rotated_at := none
      updated_at := now }
    ⟨.ok reactivated, [rotated, reactivated]⟩

/-- `Keystore::revoke`: requires Active; stamps `revoked_at`. -/
def keystoreRevoke (meta : KeyMetadata) (now : Nat) : Except String KeyMetadata :=
  if meta.state ≠ .Active then
    .error ("invalid transition for " ++ meta.id ++ ": " ++ meta.state.display
      ++ " → " ++ KeyState.Revoked.display)
  else
    .ok { meta with state := KeyState.Revoked, revoked_at := some now, updated_at := now }

/-- `Keystore::destroy`: requires a lawful transition to Destroyed; purges
every version's key material with the sentinel. -/
def keystoreDestroy (meta : KeyMetadata) (now : Nat) : Except String KeyMetadata :=
  if ¬ meta.state.can_transition_to .Destroyed then
    .error ("invalid transition for " ++ meta.id ++ ": " ++ meta.state.display
      ++ " → " ++ KeyState.Destroyed.display)
  else
    .ok { meta with
      versions := meta.versions.map (fun v =>
        { v with public_key_hex := "DESTROYED", secret_key_hex := "DESTROYED" })
      state := KeyState.Destroyed
      destroyed_at := some now
      updated_at := now }

/-! ## Built-in policies (citadel-keystore/src/policy.rs) -/

/-- `KeyPolicy::default_dek`: rotate at 90 days, 7-day grace, 365-day max
lifetime. -/
def KeyPolicy.default_dek : KeyPolicy :=
  { id := "default-dek"
    name := "Default DEK Policy"
    applies_to := [.DataEncrypting]
    rotation_triggers := [.Age (90 * 86400)]
    rotation_grace_period := 7 * 86400
    max_lifetime := some (365 * 86400)
    max_usage_count := none
    auto_rotate := false
    min_versions_retained := 3 }

/-- `KeyPolicy::default_kek`: rotate at 365 days, 30-day grace. -/
def KeyPolicy.default_kek : KeyPolicy :=
  { id := "default-kek"
    name := "Default KEK Policy"
    applies_to := [.KeyEncrypting]
    rotation_triggers := [.Age (365 * 86400)]
    rotation_grace_period := 30 * 86400
    max_lifetime := none
    max_usage_count := none
    auto_rotate := false
    min_versions_retained := 5 }

/-! ## C4: policy-adapter floors and forced auto-rotate -/

/-- C4: Policy-adapter floors and forced auto-rotate — for every base policy
and every threat level, the adapted policy has effective grace period ≥ 12
hours, every effective Age rotation trigger ≥ 1 day, effective max lifetime
≥ 30 days when defined, and effective usage limit ≥ 100 when defined; and at
levels Elevated, High and Critical (in particular Level 5) the adapted
policy has `auto_rotate = true` regardless of the base policy. -/
theorem adapter_floors_and_forced_auto_rotate (base : KeyPolicy) (level : ThreatLevel) :
    FLOOR_GRACE_PERIOD ≤ (PolicyAdapter.adapt base level).rotation_grace_period ∧
    (∀ d, RotationTrigger.Age d ∈ (PolicyAdapter.adapt base level).rotation_triggers →
      FLOOR_ROTATION_AGE ≤ d) ∧
    (∀ d, (PolicyAdapter.adapt base level).max_lifetime = some d →
      FLOOR_MAX_LIFETIME ≤ d) ∧
    (∀ c, (PolicyAdapter.adapt base level).max_usage_count = some c →
      FLOOR_USAGE_COUNT ≤ c) ∧
    ((level = .Elevated ∨ level = .High ∨ level = .Critical) →
      (PolicyAdapter.adapt base level).auto_rotate = true) := by
  refine ⟨?_, ?_, ?_, ?_, ?_⟩
  · exact Nat.le_max_right _ _
  · intro d hd
    simp only [PolicyAdapter.adapt, List.mem_map] at hd
    obtain ⟨t, _, hft⟩ := hd
    cases t with
    | Age d0 =>
      simp only [RotationTrigger.Age.injEq] at hft
      rw [← hft]
      exact Nat.le_max_right _ _
    | UsageCount n => simp at hft
    | ExternalSignal s => simp at hft
    | ParentRotated => simp at hft
  · intro d hd
    simp only [PolicyAdapter.adapt, Option.map_eq_some'] at hd
    obtain ⟨d0, _, hd0⟩ := hd
    rw [← hd0]
    exact Nat.le_max_right _ _
  · intro c hc
    simp only [PolicyAdapter.adapt, Option.map_eq_some'] at hc
    obtain ⟨c0, _, hc0⟩ := hc
    rw [← hc0]
    exact Nat.le_max_right _ _
  · intro h
    rcases h with h | h | h <;> subst h <;> rfl

/-- Closed witness for `adapter_floors_and_forced_auto_rotate`: the default
DEK policy adapted at Critical keeps the grace floor and has auto-rotate
forced on. -/
theorem adapter_floors_witness :
    FLOOR_GRACE_PERIOD ≤
      (PolicyAdapter.adapt KeyPolicy.default_dek ThreatLevel.Critical).rotation_grace_period ∧
    (PolicyAdapter.adapt KeyPolicy.default_dek ThreatLevel.Critical).auto_rotate = true :=
  ⟨(adapter_floors_and_forced_auto_rotate KeyPolicy.default_dek .Critical).1,
   (adapter_floors_and_forced_auto_rotate KeyPolicy.default_dek .Critical).2.2.2.2
     (Or.inr (Or.inr rfl))⟩

/-! ## C5: threat-level hysteresis -/

/-- The escalation threshold guarding entry into a level (`threshold[L]` for
level `L+1`); 0 for Low, which has no guarding threshold. -/
def escThreshold (cfg : ThreatConfig) : ThreatLevel → ℚ
  | .Low => 0
  | .Guarded => cfg.thresholds.1
  | .Elevated => cfg.thresholds.2.1
  | .High => cfg.thresholds.2.2.1
  | .Critical => cfg.thresholds.2.2.2

theorem deEscLevel_lt (cfg : ThreatConfig) (score : ℚ) (l : ThreatLevel)
    (h : (deEscLevel cfg score).value < l.value) :
    score < escThreshold cfg l * (1 - cfg.hysteresis) := by
  cases l <;> unfold deEscLevel at h <;> split_ifs at h with h1 h2 h3 h4 <;>
    simp [ThreatLevel.value, escThreshold] at h ⊢ <;> linarith

/-- C5: Threat-level hysteresis — with no manual override, after each
recorded (non-manual) event the level is updated from the decayed score of
the pruned window by: escalate immediately to the raw level when it exceeds
the current level; de-escalate only to the level computed against thresholds
scaled by `1 − hysteresis` when that level is below the current one;
otherwise hold.  In particular, whenever the level drops below the current
level `L'`, the score is below `threshold[L' − 1] × (1 − h)` — so a level
escalated from `L` to `L+1` returns to `L` only when the score falls below
`threshold[L] × (1 − h)`. -/
theorem threat_level_hysteresis (a : ThreatAssessor) (e : ThreatEvent) (now : Nat)
    (hov : a.manual_override = none)
    (hk1 : e.kind ≠ .ManualEscalation) (hk2 : e.kind ≠ .ManualDeescalation) :
    (record_event a e now).current_level =
      nextLevel a.config a.current_level
        (compute_score (prune_old_events (a.events ++ [e]) a.config now) a.config now) ∧
    (∀ score : ℚ,
      (a.current_level.value < (rawLevel a.config score).value →
        nextLevel a.config a.current_level score = rawLevel a.config score) ∧
      ((rawLevel a.config score).value ≤ a.current_level.value →
        (deEscLevel a.config score).value < a.current_level.value →
        nextLevel a.config a.current_level score = deEscLevel a.config score) ∧
      ((rawLevel a.config score).value ≤ a.current_level.value →
        a.current_level.value ≤ (deEscLevel a.config score).value →
        nextLevel a.config a.current_level score = a.current_level) ∧
      ((nextLevel a.config a.current_level score).value < a.current_level.value →
        score < escThreshold a.config a.current_level * (1 - a.config.hysteresis))) := by
  constructor
  · have ha1 : record_event a e now =
        recompute_level
          { a with events := prune_old_events (a.events ++ [e]) a.config now } now := by
      unfold record_event
      rcases e with ⟨ts, kind, sev, det⟩
      cases kind <;> simp_all
    rw [ha1]
    unfold recompute_level
    rw [hov]
  · intro score
    refine ⟨?_, ?_, ?_, ?_⟩
    · intro h
      unfold nextLevel
      rw [if_pos h]
    · intro h1 h2
      unfold nextLevel
      rw [if_neg (by omega), if_pos h2]
    · intro h1 h2
      unfold nextLevel
      rw [if_neg (by omega), if_neg (by omega)]
    · intro h
      simp only [nextLevel] at h
      split_ifs at h with h1 h2
      · omega
      · exact deEscLevel_lt a.config score a.current_level h2
      · omega

/-- Closed witness for `threat_level_hysteresis`: a fresh assessor at the
default configuration receiving a decryption-failure event; the update rule
applies and, at score 3 with current level Low, the level holds Low. -/
theorem threat_level_hysteresis_witness :
    (record_event
        ⟨ThreatConfig.default, [], .Low, none⟩
        (ThreatEvent.new .DecryptionFailure 3 0) 0).current_level =
      nextLevel ThreatConfig.default .Low
        (compute_score
          (prune_old_events ([] ++ [ThreatEvent.new .DecryptionFailure 3 0])
            ThreatConfig.default 0)
          ThreatConfig.default 0) ∧
    nextLevel ThreatConfig.default .Low (3 : ℚ) = .Low := by
  have hraw : rawLevel ThreatConfig.default (3 : ℚ) = .Low := by
    unfold rawLevel ThreatConfig.default
    norm_num
  have hde : deEscLevel ThreatConfig.default (3 : ℚ) = .Low := by
    unfold deEscLevel ThreatConfig.default
    norm_num
  refine ⟨(threat_level_hysteresis ⟨ThreatConfig.default, [], .Low, none⟩
      (ThreatEvent.new .DecryptionFailure 3 0) 0 rfl (by decide) (by decide)).1,
    ((threat_level_hysteresis ⟨ThreatConfig.default, [], .Low, none⟩
      (ThreatEvent.new .DecryptionFailure 3 0) 0 rfl (by decide) (by decide)).2 3).2.2.1
      ?_ ?_⟩
  · show (rawLevel ThreatConfig.default (3 : ℚ)).value ≤ ThreatLevel.Low.value
    rw [hraw]
  · show ThreatLevel.Low.value ≤ (deEscLevel ThreatConfig.default (3 : ℚ)).value
    rw [hde]

/-! ## C6: audit integrity chain -/

def dummyAudit : AuditEvent := AuditEvent.system_event .KeyGenerated 0

theorem chainRunFrom_length (hash : String → String) (json : AuditEvent → String) :
    ∀ (es : List AuditEvent) (st : ChainState),
      (chainRunFrom hash json st es).length = es.length := by
  intro es
  induction es with
  | nil => intro st; rfl
  | cons e rest ih =>
    intro st
    simp only [chainRunFrom, List.length_cons, ih]

theorem chainRunFrom_sequence (hash : String → String) (json : AuditEvent → String) :
    ∀ (es : List AuditEvent) (st : ChainState) (i : Nat), i < es.length →
      ((chainRunFrom hash json st es).getD i dummyAudit).sequence = some (st.sequence + i) := by
  intro es
  induction es with
  | nil =>
    intro st i hi
    simp at hi
  | cons e rest ih =>
    intro st i hi
    cases i with
    | zero => rfl
    | succ k =>
      have hk : k < rest.length := by
        simpa using hi
      show ((chainRunFrom hash json _ rest).getD k dummyAudit).sequence = _
      rw [ih _ k hk]
      simp only [chainStep]
      congr 1
      omega

theorem chainRunFrom_head (hash : String → String) (json : AuditEvent → String) :
    ∀ (es : List AuditEvent) (st : ChainState), 0 < es.length →
      ((chainRunFrom hash json st es).getD 0 dummyAudit).prev_hash = some st.prev_hash := by
  intro es st h
  cases es with
  | nil => simp at h
  | cons e rest => rfl

theorem chainRunFrom_link (hash : String → String) (json : AuditEvent → String) :
    ∀ (es : List AuditEvent) (st : ChainState) (i : Nat), i + 1 < es.length →
      ((chainRunFrom hash json st es).getD (i + 1) dummyAudit).prev_hash
        = some (hash (json ((chainRunFrom hash json st es).getD i dummyAudit))) := by
  intro es
  induction es with
  | nil =>
    intro st i hi
    simp at hi
  | cons e rest ih =>
    intro st i hi
    cases i with
    | zero =>
      have hr : 0 < rest.length := by
        simpa using hi
      show ((chainRunFrom hash json _ rest).getD 0 dummyAudit).prev_hash = _
      rw [chainRunFrom_head hash json rest _ hr]
      rfl
    | succ k =>
      have hk : k + 1 < rest.length := by
        simpa using hi
      show ((chainRunFrom hash json _ rest).getD (k + 1) dummyAudit).prev_hash = _
      rw [ih _ k hk]
      rfl

/-- C6: Audit integrity chain — every sequence of events recorded through the
integrity-chain sink is stamped with sequence numbers 0, 1, 2, … without
gaps; the first event's `prev_hash` is the digest of "citadel-audit-genesis";
and every later event's `prev_hash` is the digest of the JSON encoding of
the previous stamped event.  (`hash` and `json` model the external SHA-256
hex digest and `serde_json` serialization.) -/
theorem audit_chain_integrity (hash : String → String) (json : AuditEvent → String)
    (events : List AuditEvent) :
    (chainRun hash json events).length = events.length ∧
    (∀ i, i < events.length →
      ((chainRun hash json events).getD i dummyAudit).sequence = some i) ∧
    (0 < events.length →
      ((chainRun hash json events).getD 0 dummyAudit).prev_hash
        = some (hash "citadel-audit-genesis")) ∧
    (∀ i, i + 1 < events.length →
      ((chainRun hash json events).getD (i + 1) dummyAudit).prev_hash
        = some (hash (json ((chainRun hash json events).getD i dummyAudit)))) := by
  refine ⟨chainRunFrom_length hash json events _, ?_, ?_, ?_⟩
  · intro i hi
    rw [chainRun, chainRunFrom_sequence hash json events _ i hi]
    simp [chainInit]
  · intro h
    exact chainRunFrom_head hash json events _ h
  · intro i hi
    exact chainRunFrom_link hash json events _ i hi

def exampleHash (s : String) : String := "h:" ++ s

def exampleJson (e : AuditEvent) : String := e.actor ++ toString (e.sequence.getD 0)

/-- Closed witness for `audit_chain_integrity` on a concrete two-event
stream: the second event carries sequence 1 and the digest of the first
stamped event's encoding. -/
theorem audit_chain_integrity_witness :
    ((chainRun exampleHash exampleJson [dummyAudit, dummyAudit]).getD 1 dummyAudit).sequence
        = some 1 ∧
    ((chainRun exampleHash exampleJson [dummyAudit, dummyAudit]).getD 1 dummyAudit).prev_hash
        = some (exampleHash (exampleJson
            ((chainRun exampleHash exampleJson [dummyAudit, dummyAudit]).getD 0 dummyAudit))) :=
  ⟨(audit_chain_integrity exampleHash exampleJson [dummyAudit, dummyAudit]).2.1 1 (by decide),
   (audit_chain_integrity exampleHash exampleJson [dummyAudit, dummyAudit]).2.2.2 0 (by decide)⟩

/-! ## C8: policy evaluation rule order -/

def usagePolicyExample : KeyPolicy :=
  { id := "p", name := "p", applies_to := [], rotation_triggers := []
    rotation_grace_period := 0, max_lifetime := none, max_usage_count := some 15
    auto_rotate := false, min_versions_retained := 0 }

def usageKeyExample : KeyMetadata :=
  { id := "k", name := "k", key_type := .DataEncrypting, state := .Active
    policy_id := none, parent_id := none, created_at := 0, updated_at := 0
    activated_at := none, rotated_at := none, revoked_at := none, destroyed_at := none
    versions := [], current_version := 1, usage_count := 13, tags := [] }

/-- C8 counterexample: with `max_usage_count = 15` and `usage_count = 13` the
code returns a usage Warning, although `13 < 0.9 × 15 = 13.5` — the claim's
exact-arithmetic warning rule does not fire at this input (and neither does
any other rule of the claim, so the claim predicts Compliant). -/
theorem evaluate_usage_warning_truncation_counterexample :
    evaluate usagePolicyExample usageKeyExample 0 = .Warning "usage 13/15 (86%)" ∧
    ¬ ((13 : ℚ) ≥ (9 / 10) * 15) ∧
    (13 : Nat) < 15 := by
  refine ⟨by decide, by norm_num, by decide⟩

/-- C8 (amended): evaluation applies rules in order with first match winning,
with both 90% warning thresholds computed by integer truncation
(`⌊0.9 × limit⌋`, as `(x as f64 * 0.9) as u64` computes them): non-Active →
Compliant; usage ≥ limit → UsageLimitExceeded; usage ≥ ⌊0.9 × limit⌋ →
Warning; else the Age triggers in order — age ≥ max_age → RotationNeeded,
age ≥ ⌊0.9 × max_age⌋ → Warning, non-Age triggers skipped; otherwise
Compliant (also when `activated_at` is unset). -/
theorem evaluate_rule_order (p : KeyPolicy) (k : KeyMetadata) (now : Nat) :
    (k.state ≠ .Active → evaluate p k now = .Compliant) ∧
    (∀ m, p.max_usage_count = some m → m ≤ k.usage_count → k.state = .Active →
      evaluate p k now = .UsageLimitExceeded k.usage_count m) ∧
    (∀ m, p.max_usage_count = some m → k.usage_count < m →
      warnThreshold m ≤ k.usage_count → k.state = .Active →
      evaluate p k now = .Warning ("usage " ++ toString k.usage_count ++ "/" ++ toString m
        ++ " (" ++ toString (k.usage_count * 100 / m) ++ "%)")) ∧
    ((p.max_usage_count = none ∨
        ∃ m, p.max_usage_count = some m ∧ k.usage_count < warnThreshold m) →
      ∀ a, k.activated_at = some a → k.state = .Active →
      evaluate p k now =
        (evalAgeTriggers p.rotation_triggers ((now : Int) - (a : Int))).getD .Compliant) ∧
    ((p.max_usage_count = none ∨
        ∃ m, p.max_usage_count = some m ∧ k.usage_count < warnThreshold m) →
      k.activated_at = none → k.state = .Active →
      evaluate p k now = .Compliant) ∧
    (∀ (age : Int) (d : Nat) (rest : List RotationTrigger), (d : Int) ≤ age →
      evalAgeTriggers (.Age d :: rest) age = some (.RotationNeeded
        ("age " ++ format_chrono_duration age ++ " exceeds max " ++ format_std_duration d))) ∧
    (∀ (age : Int) (d : Nat) (rest : List RotationTrigger),
      age < (d : Int) → (warnThreshold d : Int) ≤ age →
      evalAgeTriggers (.Age d :: rest) age = some (.Warning
        ("age " ++ format_chrono_duration age ++ " approaching max "
          ++ format_std_duration d))) ∧
    (∀ (age : Int) (d : Nat) (rest : List RotationTrigger),
      age < (warnThreshold d : Int) →
      evalAgeTriggers (.Age d :: rest) age = evalAgeTriggers rest age) ∧
    (∀ (age : Int) (n : Nat) (rest : List RotationTrigger),
      evalAgeTriggers (.UsageCount n :: rest) age = evalAgeTriggers rest age) ∧
    (∀ (age : Int) (s : String) (rest : List RotationTrigger),
      evalAgeTriggers (.ExternalSignal s :: rest) age = evalAgeTriggers rest age) ∧
    (∀ (age : Int) (rest : List RotationTrigger),
      evalAgeTriggers (.ParentRotated :: rest) age = evalAgeTriggers rest age) ∧
    (∀ age : Int, evalAgeTriggers [] age = none) := by
  have husage_none : ∀ (hu : p.max_usage_count = none ∨
      ∃ m, p.max_usage_count = some m ∧ k.usage_count < warnThreshold m),
      evalUsage p k = none := by
    intro hu
    rcases hu with h | ⟨m, hm, hlt⟩
    · simp [evalUsage, h]
    · have hltm : k.usage_count < m := by
        have : warnThreshold m ≤ m := by
          unfold warnThreshold
          omega
        omega
      simp [evalUsage, hm, Nat.not_le.mpr hltm, Nat.not_le.mpr hlt]
  refine ⟨?_, ?_, ?_, ?_, ?_, ?_, ?_, ?_, ?_, ?_, ?_, ?_⟩
  · intro h
    unfold evaluate
    rw [if_pos h]
  · intro m hm hle hact
    simp [evaluate, evalUsage, hact, hm, hle]
  · intro m hm hlt hwarn hact
    simp [evaluate, evalUsage, hact, hm, Nat.not_le.mpr hlt, hwarn]
  · intro hu a ha hact
    simp [evaluate, hact, husage_none hu, ha]
  · intro hu ha hact
    simp [evaluate, hact, husage_none hu, ha]
  · intro age d rest h
    simp [evalAgeTriggers, h]
  · intro age d rest h1 h2
    simp [evalAgeTriggers, Int.not_le.mpr h1, h2]
  · intro age d rest h
    have h2 : age < (d : Int) := by
      have : warnThreshold d ≤ d := by
        unfold warnThreshold
        omega
      omega
    simp [evalAgeTriggers, Int.not_le.mpr h2, Int.not_le.mpr h]
  · intro age n rest
    rfl
  · intro age s rest
    rfl
  · intro age rest
    rfl
  · intro age
    rfl

/-- Closed witness for `evaluate_rule_order`: the usage-limit rule firing at
the concrete example key with its usage raised to the limit. -/
theorem evaluate_rule_order_witness :
    evaluate usagePolicyExample { usageKeyExample with usage_count := 15 } 0
      = .UsageLimitExceeded 15 15 :=
  (evaluate_rule_order usagePolicyExample
      { usageKeyExample with usage_count := 15 } 0).2.1 15 rfl (by decide) rfl

/-! ## C3: encrypt policy-gate atomicity -/

/-- C3: Encrypt policy-gate atomicity — when the threat-adapted policy
evaluation yields RotationNeeded or UsageLimitExceeded, keystore encrypt
returns the typed policy-violation error, produces no ciphertext, performs
no storage write (so `usage_count` is not bumped and the stored record is
unchanged), and audits a BLOCKED verdict; a Warning verdict is audited and
encryption proceeds; a Compliant verdict proceeds. -/
theorem encrypt_policy_gate (policies : List (String × KeyPolicy)) (level : ThreatLevel)
    (meta : KeyMetadata) (plaintext aad ctx : List Nat) (now r : Nat) (nonce : List Nat) :
    (∀ adapted reason, effective_policy_for policies level meta = some adapted →
      evaluate adapted meta now = .RotationNeeded reason →
      keystoreEncrypt policies level meta plaintext aad ctx now r nonce =
        ⟨.error ("policy violation: " ++ reason ++ ". Rotate key before encrypting."),
         [], [.PolicyEvaluated ("BLOCKED: " ++ reason)]⟩) ∧
    (∀ adapted count limit, effective_policy_for policies level meta = some adapted →
      evaluate adapted meta now = .UsageLimitExceeded count limit →
      keystoreEncrypt policies level meta plaintext aad ctx now r nonce =
        ⟨.error ("policy violation: usage " ++ toString count ++ "/" ++ toString limit
            ++ " exceeded. Rotate key before encrypting."),
         [], [.PolicyEvaluated ("BLOCKED: usage " ++ toString count ++ "/" ++ toString limit)]⟩) ∧
    (∀ adapted reason, effective_policy_for policies level meta = some adapted →
      evaluate adapted meta now = .Warning reason →
      keystoreEncrypt policies level meta plaintext aad ctx now r nonce =
        encryptProceed meta plaintext aad ctx now r nonce
          [.PolicyEvaluated ("WARNING: " ++ reason)]) ∧
    (∀ adapted, effective_policy_for policies level meta = some adapted →
      evaluate adapted meta now = .Compliant → meta.state.can_encrypt = true →
      keystoreEncrypt policies level meta plaintext aad ctx now r nonce =
        encryptProceed meta plaintext aad ctx now r nonce []) := by
  have hactive : ∀ (adapted : KeyPolicy) (v : PolicyVerdict),
      evaluate adapted meta now = v → v ≠ .Compliant → meta.state.can_encrypt = true := by
    intro adapted v hev hv
    by_contra h
    have hne : meta.state ≠ .Active := by
      cases hs : meta.state <;> simp_all [KeyState.can_encrypt]
    unfold evaluate at hev
    rw [if_pos hne] at hev
    exact hv hev.symm
  refine ⟨?_, ?_, ?_, ?_⟩
  · intro adapted reason heff hev
    have hce := hactive adapted _ hev (by simp)
    simp [keystoreEncrypt, hce, heff, hev]
  · intro adapted count limit heff hev
    have hce := hactive adapted _ hev (by simp)
    simp [keystoreEncrypt, hce, heff, hev]
  · intro adapted reason heff hev
    have hce := hactive adapted _ hev (by simp)
    simp [keystoreEncrypt, hce, heff, hev]
  · intro adapted heff hev hce
    simp [keystoreEncrypt, hce, heff, hev]

def gatePolicies : List (String × KeyPolicy) := [("p", usagePolicyExample)]

def gateKeyExample : KeyMetadata :=
  { usageKeyExample with policy_id := some "p", usage_count := 200 }

/-- Closed witness for `encrypt_policy_gate`: the usage gate blocks a key at
usage 200 against the adapted limit 100 (the floor raises the base limit 15),
with no storage write. -/
theorem encrypt_policy_gate_witness :
    keystoreEncrypt gatePolicies .Low gateKeyExample [] [] [] 0 0 [] =
      ⟨.error "policy violation: usage 200/100 exceeded. Rotate key before encrypting.",
       [], [.PolicyEvaluated "BLOCKED: usage 200/100"]⟩ :=
  (encrypt_policy_gate gatePolicies .Low gateKeyExample [] [] [] 0 0 []).2.1
    (PolicyAdapter.adapt usagePolicyExample .Low) 200 100 (by decide) (by decide)

/-! ## C10: missing policy means no gate -/

/-- C10: the encrypt policy gate applies only when the key's `policy_id`
names a registered policy — with no `policy_id`, or with an unregistered
one, encrypt never returns a policy-violation error and proceeds directly to
envelope encryption (subject only to the key's state allowing encryption);
its only possible failures are the proceed-path ones. -/
theorem encrypt_missing_policy_proceeds (policies : List (String × KeyPolicy))
    (level : ThreatLevel) (meta : KeyMetadata) (plaintext aad ctx : List Nat)
    (now r : Nat) (nonce : List Nat)
    (hstate : meta.state.can_encrypt = true)
    (hpol : meta.policy_id = none ∨
      ∃ pid, meta.policy_id = some pid ∧ lookupPolicy policies pid = none) :
    keystoreEncrypt policies level meta plaintext aad ctx now r nonce
      = encryptProceed meta plaintext aad ctx now r nonce [] ∧
    (∀ err, (keystoreEncrypt policies level meta plaintext aad ctx now r nonce).result
        = .error err →
      err = "no current version" ∨ err = "parse public key failed"
        ∨ err = "seal: encoding error") := by
  have heff : effective_policy_for policies level meta = none := by
    rcases hpol with h | ⟨pid, h1, h2⟩
    · simp [effective_policy_for, h]
    · simp [effective_policy_for, h1, h2]
  have hmain : keystoreEncrypt policies level meta plaintext aad ctx now r nonce
      = encryptProceed meta plaintext aad ctx now r nonce [] := by
    simp [keystoreEncrypt, hstate, heff]
  refine ⟨hmain, ?_⟩
  intro err herr
  rw [hmain] at herr
  unfold encryptProceed at herr
  rcases hcv : meta.current_key_version with _ | version
  · rw [hcv] at herr
    simp at herr
    exact Or.inl herr.symm
  · rw [hcv] at herr
    simp only [] at herr
    rcases hpk : decodeKeyMaterial version.public_key_hex with _ | pk
    · rw [hpk] at herr
      simp at herr
      exact Or.inr (Or.inl herr.symm)
    · rw [hpk] at herr
      simp only [] at herr
      rcases henc : encrypt pk plaintext aad ctx r nonce with e | ciphertext
      · rw [henc] at herr
        simp at herr
        exact Or.inr (Or.inr herr.symm)
      · rw [henc] at herr
        simp at herr

/-- Closed witness for `encrypt_missing_policy_proceeds`: a policy-less
active key is encrypted with no gate involvement (the usage bump is
persisted). -/
theorem encrypt_missing_policy_witness :
    keystoreEncrypt gatePolicies .Low
        { usageKeyExample with versions := [⟨1, 0, "1", "2"⟩] } [] [] [] 0 0
        (List.replicate 12 0)
      = encryptProceed { usageKeyExample with versions := [⟨1, 0, "1", "2"⟩] }
          [] [] [] 0 0 (List.replicate 12 0) [] :=
  (encrypt_missing_policy_proceeds gatePolicies .Low
    { usageKeyExample with versions := [⟨1, 0, "1", "2"⟩] } [] [] [] 0 0
    (List.replicate 12 0) (by decide) (Or.inl rfl)).1

/-! ## C9: rotation and the lifecycle scenario -/

/-- C9: `rotate` succeeds only on an Active key; it appends exactly one new
version numbered `current_version + 1`, stamps `rotated_at`, persists the
record as Rotated, then re-persists the same record as Active with the
bumped `current_version` (restamping `activated_at` and clearing
`rotated_at`); and after generate → activate → rotate → revoke → destroy the
observed state sequence is exactly Pending, Active, Active (new version),
Revoked, Destroyed, with exactly 2 versions in the record. -/
theorem rotate_and_lifecycle :
    (∀ (meta : KeyMetadata) (now pkm skm : Nat), meta.state ≠ .Active →
      keystoreRotate meta now pkm skm = ⟨.error ("key not active: " ++ meta.id), []⟩) ∧
    (∀ (meta : KeyMetadata) (now pkm skm : Nat), meta.state = .Active →
      ∃ rotated reactivated,
        keystoreRotate meta now pkm skm = ⟨.ok reactivated, [rotated, reactivated]⟩ ∧
        rotated.state = .Rotated ∧
        rotated.rotated_at = some now ∧
        rotated.versions = meta.versions ++
          [⟨meta.current_version + 1, now, encodeKeyMaterial pkm, encodeKeyMaterial skm⟩] ∧
        rotated.current_version = meta.current_version + 1 ∧
        reactivated = { rotated with
          state := KeyState.Active
          activated_at := some now
          rotated_at := none
          updated_at := now }) ∧
    (let m0 := keystoreGenerate "k" "name" .DataEncrypting none none 0 1 2
     let m1 := (keystoreActivate m0 1).toOption.getD m0
     let rot := keystoreRotate m1 2 3 4
     let m2 := rot.result.toOption.getD m0
     let m3 := (keystoreRevoke m2 3).toOption.getD m0
     let m4 := (keystoreDestroy m3 4).toOption.getD m0
     (keystoreActivate m0 1).toOption.isSome = true ∧
     rot.result.toOption.isSome = true ∧
     (keystoreRevoke m2 3).toOption.isSome = true ∧
     (keystoreDestroy m3 4).toOption.isSome = true ∧
     [m0.state, m1.state, m2.state, m3.state, m4.state]
       = [.Pending, .Active, .Active, .Revoked, .Destroyed] ∧
     m2.current_version = 2 ∧
     m4.versions.length = 2) := by
  refine ⟨?_, ?_, ?_⟩
  · intro meta now pkm skm h
    unfold keystoreRotate
    rw [if_pos h]
  · intro meta now pkm skm h
    refine ⟨{ meta with
        state := KeyState.Rotated
        rotated_at := some now
        updated_at := now
        versions := meta.versions ++
          [⟨meta.current_version + 1, now, encodeKeyMaterial pkm, encodeKeyMaterial skm⟩]
        current_version := meta.current_version + 1 },
      { meta with
        state := KeyState.Active
        activated_at := some now
        rotated_at := none
        updated_at := now
        versions := meta.versions ++
          [⟨meta.current_version + 1, now, encodeKeyMaterial pkm, encodeKeyMaterial skm⟩]
        current_version := meta.current_version + 1 },
      ?_, rfl, rfl, rfl, rfl, rfl⟩
    unfold keystoreRotate
    rw [if_neg (by simp [h])]
  · decide

/-- Closed witness for `rotate_and_lifecycle`: rotating a concrete Active
key yields the Rotated-then-Active double write with the appended version. -/
theorem rotate_and_lifecycle_witness :
    ∃ rotated reactivated,
      keystoreRotate usageKeyExample 5 7 8 = ⟨.ok reactivated, [rotated, reactivated]⟩ ∧
      rotated.state = .Rotated ∧
      rotated.rotated_at = some 5 ∧
      rotated.versions = usageKeyExample.versions ++
        [⟨usageKeyExample.current_version + 1, 5, encodeKeyMaterial 7, encodeKeyMaterial 8⟩] ∧
      rotated.current_version = usageKeyExample.current_version + 1 ∧
      reactivated = { rotated with
        state := KeyState.Active
        activated_at := some 5
        rotated_at := none
        updated_at := 5 } :=
  rotate_and_lifecycle.2.1 usageKeyExample 5 7 8 rfl

/-! ## C7: keystore decrypt failure behavior -/

/-- C7 counterexample: a decrypt failure that is not an envelope-open failure
— the blob's key is absent from storage — records no threat event, records
no audit event, and returns "key not found: k1" rather than the uniform
"decryption failed".  This refutes the claim for "every failure of keystore
decrypt". -/
theorem keystore_decrypt_nonuniform_counterexample :
    keystoreDecrypt [] ⟨"k1", 1, [], 0⟩ [] [] =
      ⟨.error "key not found: k1", [], []⟩ ∧
    ("key not found: k1" ≠ "decryption failed") := by
  exact ⟨rfl, by decide⟩

/-- C7 (amended): when keystore decrypt fails in the envelope open itself
(the key exists, its state allows decryption, the blob's version exists and
its secret key parses), a ThreatEvent of kind DecryptionFailure with
severity 3.0 is recorded, a DecryptionFailed audit event is recorded, and
the returned error text is exactly "decryption failed"; the earlier failure
stages (missing key, undecryptable state, missing version, unparsable key
material) instead return their domain-specific errors and record nothing. -/
theorem keystore_decrypt_envelope_failure (storage : List (String × KeyMetadata))
    (blob : EncryptedBlob) (aad ctx : List Nat) (meta : KeyMetadata)
    (version : KeyVersion) (sk : Nat)
    (hmeta : (storage.find? (fun p => p.1 == blob.key_id)).map (fun p => p.2) = some meta)
    (hstate : meta.state.can_decrypt = true)
    (hver : meta.versions.find? (fun v => v.version == blob.key_version) = some version)
    (hsk : decodeKeyMaterial version.secret_key_hex = some sk)
    (hfail : decrypt sk blob.ciphertext aad ctx = .error {}) :
    keystoreDecrypt storage blob aad ctx =
      ⟨.error "decryption failed", [(.DecryptionFailure, 3)],
       [.DecryptionFailed blob.key_version]⟩ := by
  unfold keystoreDecrypt
  rw [hmeta]
  simp only []
  rw [if_neg (by simp [hstate])]
  rw [hver]
  simp only []
  rw [hsk]
  simp only []
  rw [hfail]

def decryptKeyExample : KeyMetadata :=
  { usageKeyExample with id := "k1", versions := [⟨1, 0, "1", "7"⟩] }

/-- Closed witness for `keystore_decrypt_envelope_failure`: an Active key
with a parsable secret and an empty (undecodable) ciphertext — the envelope
open fails and the uniform error, threat event and audit event are
produced. -/
theorem keystore_decrypt_envelope_failure_witness :
    keystoreDecrypt [("k1", decryptKeyExample)] ⟨"k1", 1, [], 0⟩ [] [] =
      ⟨.error "decryption failed", [(.DecryptionFailure, 3)], [.DecryptionFailed 1]⟩ :=
  keystore_decrypt_envelope_failure [("k1", decryptKeyExample)] ⟨"k1", 1, [], 0⟩ [] []
    decryptKeyExample ⟨1, 0, "1", "7"⟩ 7 (by decide) (by decide) (by decide) (by decide)
    rfl

end Citadel
